import Mathlib

/-!
Verification of the document-assistant terminal UI (`app_textual.py`) and its
prompt-template module (`src/prompts.py`) against their design specification.

The Python code is shallowly embedded:
* `pyStrip` models Python's `str.strip()` on ASCII whitespace.
* `sendMessage` models `DocumentAssistantApp.send_message` as a pure function
  from the input-field value and a backend (the opaque
  `DocumentAssistant.process_message`, which either returns a result dict or
  raises, modelled as `Except String ProcessResult`) to the cleared input
  value and the ordered list of UI events the coroutine performs.
* `assistantText` models `MessageDisplay.compose` for assistant messages.
* `on_mount` models `DocumentAssistantApp.on_mount`.
* Timing of the thinking indicator is modelled on an idealized rational
  timeline where `asyncio.sleep` takes exactly its nominal duration and all
  other operations are instantaneous.
-/

/-- Python ASCII whitespace characters, as stripped by `str.strip()`. -/
def isPySpace (c : Char) : Bool :=
  c == ' ' || c == '\t' || c == '\n' || c == '\r' || c == '\x0b' || c == '\x0c'

/-- `str.strip()` on a list of characters: drop whitespace from both ends. -/
def pyStripList (l : List Char) : List Char :=
  ((l.dropWhile isPySpace).reverse.dropWhile isPySpace).reverse

/-- Model of Python's `str.strip()` (`message_input.value.strip()`). -/
def pyStrip (s : String) : String :=
  String.mk (pyStripList s.data)

/-- A truthy `intent` payload from the backend result dict. Only the
`intent_type` field is inspected by the UI (`intent.get("intent_type",
"unknown")`); it is `none` when the key is missing. An absent or falsy
(`None` / empty-dict) intent value is modelled as `none` at the use site. -/
structure IntentVal where
  intent_type : Option String
deriving DecidableEq, Repr

/-- The result dict returned by `DocumentAssistant.process_message`.
`response` is `none` when the value is Python `None`; `intent` is `none`
when `result.get("intent")` is missing or falsy; `tools_used` and `sources`
default to `[]` as in `result.get("tools_used", [])`; `error` is `none` when
the `error` key is missing, as in `result.get("error", "Unknown error")`. -/
structure ProcessResult where
  success : Bool
  response : Option String := none
  intent : Option IntentVal := none
  tools_used : List String := []
  sources : List String := []
  error : Option String := none
deriving DecidableEq, Repr

/-- The metadata dict passed to `MessageDisplay`; defaults model the empty
dict used for error messages. -/
structure Metadata where
  intent : Option IntentVal := none
  tools_used : List String := []
  sources : List String := []
deriving DecidableEq, Repr

/-- `result["response"] or "No response generated."`: Python `or` replaces a
falsy (`None` or empty) response with the placeholder. -/
def responseOrPlaceholder (r : Option String) : String :=
  match r with
  | none => "No response generated."
  | some s => if s = "" then "No response generated." else s

/-- The `Intent: ...` annotation appended by `MessageDisplay.compose` when
`metadata.get("intent")` is truthy. -/
def intentSeg (i : Option IntentVal) : String :=
  match i with
  | some it => "\n\n[dim]Intent: " ++ it.intent_type.getD "unknown" ++ "[/dim]"
  | none => ""

/-- The `Tools: ...` annotation appended when `metadata.get("tools_used")`
is truthy (a non-empty list). -/
def toolsSeg (ts : List String) : String :=
  if ts = [] then "" else "\n[dim]Tools: " ++ String.intercalate ", " ts ++ "[/dim]"

/-- The `Sources: ...` annotation appended when `metadata.get("sources")`
is truthy (a non-empty list). -/
def sourcesSeg (ss : List String) : String :=
  if ss = [] then "" else "\n[dim]Sources: " ++ String.intercalate ", " ss ++ "[/dim]"

/-- `MessageDisplay.compose` for an assistant-role message: the header, the
content, then the optional intent / tools / sources annotations. -/
def assistantText (content : String) (md : Metadata) : String :=
  "[bold green]🤖 Assistant:[/bold green]\n" ++ content
    ++ intentSeg md.intent ++ toolsSeg md.tools_used ++ sourcesSeg md.sources

/-- Observable UI events performed by `send_message`, in program order. -/
inductive Ev where
  | mountUser (content : String)
  | mountThinking
  | removeThinking
  | mountAssistant (text : String)
  | setStatus (text : String)
  | backendCall (msg : String)
deriving DecidableEq, Repr

/-- Events of `send_message` up to and including the backend invocation:
mount the user message, mount the thinking indicator, set the processing
status, and call `self.assistant.process_message` in the executor. -/
def preEvents (m : String) : List Ev :=
  [Ev.mountUser m, Ev.mountThinking,
   Ev.setStatus "[yellow]⏳ Processing your request...[/yellow]",
   Ev.backendCall m]

/-- `DocumentAssistantApp.send_message`: strip the input; on blank input
return immediately; otherwise clear the input, render the user message and
thinking indicator, invoke the backend once, and on completion remove the
indicator and render either the response, the backend-reported error, or —
when the backend raised — the unexpected-error message produced by the
`except Exception` handler. Returns the new input-field value and the event
list. -/
def sendMessage (inputValue : String)
    (backend : String → Except String ProcessResult) : String × List Ev :=
  let user_message := pyStrip inputValue
  if user_message = "" then (inputValue, [])
  else
    match backend user_message with
    | Except.error e =>
      ("", preEvents user_message ++
        [Ev.removeThinking,
         Ev.mountAssistant (assistantText ("❌ Unexpected error: " ++ e) {}),
         Ev.setStatus ("[red]❌ Error: " ++ e ++ "[/red]")])
    | Except.ok result =>
      if result.success then
        ("", preEvents user_message ++
          [Ev.removeThinking,
           Ev.mountAssistant (assistantText (responseOrPlaceholder result.response)
             { intent := result.intent, tools_used := result.tools_used,
               sources := result.sources }),
           Ev.setStatus "[green]✓ Response received[/green]"])
      else
        ("", preEvents user_message ++
          [Ev.removeThinking,
           Ev.mountAssistant (assistantText
             ("❌ Error: " ++ result.error.getD "Unknown error") {}),
           Ev.setStatus "[red]❌ Error occurred[/red]"])

/-- `needle` occurs as a contiguous substring of `hay`. -/
def StrIn (needle hay : String) : Prop :=
  ∃ p q, hay = p ++ needle ++ q

theorem strIn_middle (a b c : String) : StrIn b (a ++ b ++ c) := ⟨a, c, rfl⟩

theorem strIn_append_left (n h x : String) (hn : StrIn n h) : StrIn n (h ++ x) := by
  obtain ⟨p, q, rfl⟩ := hn
  exact ⟨p, q ++ x, by simp [String.append_assoc]⟩

theorem strIn_append_right (n h x : String) (hn : StrIn n h) : StrIn n (x ++ h) := by
  obtain ⟨p, q, rfl⟩ := hn
  exact ⟨x ++ p, q, by simp [String.append_assoc]⟩

theorem strIn_refl (s : String) : StrIn s s := ⟨"", "", by simp⟩

example : pyStrip "  hi there \n" = "hi there" := by decide
example : pyStrip " \t " = "" := by decide
example : sendMessage "   " (fun _ => Except.error "boom") = ("   ", []) := by decide

/-- Every non-blank submission reaches the backend call, whatever the
backend then does: nothing in `send_message` gates or disables submission. -/
theorem backendCall_mem (input : String) (b : String → Except String ProcessResult)
    (h : pyStrip input ≠ "") : Ev.backendCall (pyStrip input) ∈ (sendMessage input b).2 := by
  unfold sendMessage
  cases hb : b (pyStrip input) with
  | error e => simp [h, hb, preEvents]
  | ok r =>
    by_cases hr : r.success = true
    · simp [h, hb, hr, preEvents]
    · simp [h, hb, hr, preEvents]

/-- The content appears verbatim inside the composed assistant message. -/
theorem strIn_assistant_content (c : String) (md : Metadata) :
    StrIn c (assistantText c md) := by
  unfold assistantText
  apply strIn_append_left
  apply strIn_append_left
  apply strIn_append_left
  exact ⟨"[bold green]🤖 Assistant:[/bold green]\n", "", by simp⟩

/-- C5: a submission that is empty or whitespace-only after trimming is a
no-op: the input field keeps its value and no event occurs — no user
message, no thinking indicator, no backend call, no error. -/
theorem send_message_blank_noop (input : String)
    (b : String → Except String ProcessResult) (h : pyStrip input = "") :
    sendMessage input b = (input, []) ∧
      (∀ m, Ev.backendCall m ∉ (sendMessage input b).2) ∧
      (∀ c, Ev.mountUser c ∉ (sendMessage input b).2) ∧
      Ev.mountThinking ∉ (sendMessage input b).2 ∧
      (∀ t, Ev.mountAssistant t ∉ (sendMessage input b).2) := by
  refine ⟨?_, ?_, ?_, ?_, ?_⟩ <;> simp [sendMessage, h]

/-- Witness for C5 at the whitespace-only input `" \t "`. -/
theorem send_message_blank_noop_witness :
    sendMessage " \t " (fun _ => Except.ok { success := true }) = (" \t ", []) :=
  (send_message_blank_noop " \t " (fun _ => Except.ok { success := true }) (by decide)).1

/-- C1: when the backend raises (`process_message` throws), the `except`
block of `send_message` catches it and renders an assistant message labelled
as an unexpected error that embeds the exception's description; the function
still returns normally with exactly these events, so no exception escapes. -/
theorem send_message_catches_backend_raise (input e : String)
    (b : String → Except String ProcessResult)
    (h1 : pyStrip input ≠ "") (h2 : b (pyStrip input) = Except.error e) :
    sendMessage input b = ("", preEvents (pyStrip input) ++
      [Ev.removeThinking,
       Ev.mountAssistant (assistantText ("❌ Unexpected error: " ++ e) {}),
       Ev.setStatus ("[red]❌ Error: " ++ e ++ "[/red]")]) ∧
    StrIn "Unexpected error" (assistantText ("❌ Unexpected error: " ++ e) {}) ∧
    StrIn e (assistantText ("❌ Unexpected error: " ++ e) {}) := by
  refine ⟨by simp [sendMessage, h1, h2], ?_, ?_⟩
  · have he : ("❌ Unexpected error: " ++ e : String)
        = "❌ " ++ "Unexpected error" ++ (": " ++ e) := by
      have base : ("❌ Unexpected error: " : String)
          = "❌ " ++ "Unexpected error" ++ ": " := by decide
      rw [base, String.append_assoc]
    rw [he]
    unfold assistantText
    apply strIn_append_left; apply strIn_append_left; apply strIn_append_left
    apply strIn_append_right
    exact strIn_middle "❌ " "Unexpected error" (": " ++ e)
  · unfold assistantText
    apply strIn_append_left; apply strIn_append_left; apply strIn_append_left
    apply strIn_append_right
    exact ⟨"❌ Unexpected error: ", "", by simp⟩

/-- Witness for C1: input `" hi "` with a backend that raises `"boom"`. -/
theorem send_message_catches_backend_raise_witness :
    sendMessage " hi " (fun _ => Except.error "boom") = ("", preEvents "hi" ++
      [Ev.removeThinking,
       Ev.mountAssistant (assistantText ("❌ Unexpected error: " ++ "boom") {}),
       Ev.setStatus ("[red]❌ Error: " ++ "boom" ++ "[/red]")]) ∧
    StrIn "boom" (assistantText ("❌ Unexpected error: " ++ "boom") {}) := by
  have h := send_message_catches_backend_raise " hi " "boom"
    (fun _ => Except.error "boom") (by decide) rfl
  exact ⟨by rw [h.1]; decide, h.2.2⟩

/-- C4: when the backend returns a result with `success = False`, the
rendered message is the labelled error `❌ Error: ...` containing the
backend's error description unmodified (`Unknown error` when the `error` key
is absent), and a subsequent non-blank submission still reaches the backend:
nothing is disabled. -/
theorem send_message_backend_failure (input : String)
    (b : String → Except String ProcessResult) (r : ProcessResult)
    (h1 : pyStrip input ≠ "") (h2 : b (pyStrip input) = Except.ok r)
    (h3 : r.success = false) :
    sendMessage input b = ("", preEvents (pyStrip input) ++
      [Ev.removeThinking,
       Ev.mountAssistant (assistantText
         ("❌ Error: " ++ r.error.getD "Unknown error") {}),
       Ev.setStatus "[red]❌ Error occurred[/red]"]) ∧
    StrIn (r.error.getD "Unknown error")
      (assistantText ("❌ Error: " ++ r.error.getD "Unknown error") {}) ∧
    (r.error = none → StrIn "Unknown error"
      (assistantText ("❌ Error: " ++ r.error.getD "Unknown error") {})) ∧
    (∀ input2 b2, pyStrip input2 ≠ "" →
      Ev.backendCall (pyStrip input2) ∈ (sendMessage input2 b2).2) := by
  refine ⟨by simp [sendMessage, h1, h2, h3], ?_, ?_, fun i2 b2 hi2 => backendCall_mem i2 b2 hi2⟩
  · unfold assistantText
    apply strIn_append_left; apply strIn_append_left; apply strIn_append_left
    apply strIn_append_right
    exact ⟨"❌ Error: ", "", by simp⟩
  · intro he
    rw [he]
    unfold assistantText
    apply strIn_append_left; apply strIn_append_left; apply strIn_append_left
    apply strIn_append_right
    exact ⟨"❌ Error: ", "", by simp⟩

/-- Witness for C4: backend returns `success=false, error="document not
found"`; the rendered text embeds the description and the next submission
`"next"` still reaches the backend. -/
theorem send_message_backend_failure_witness :
    sendMessage " x " (fun _ => Except.ok
        { success := false, error := some "document not found" }) =
      ("", preEvents "x" ++
        [Ev.removeThinking,
         Ev.mountAssistant (assistantText ("❌ Error: " ++ "document not found") {}),
         Ev.setStatus "[red]❌ Error occurred[/red]"]) ∧
    StrIn "document not found"
      (assistantText ("❌ Error: " ++ "document not found") {}) ∧
    Ev.backendCall "next" ∈
      (sendMessage "next" (fun _ => Except.ok { success := true })).2 := by
  have h := send_message_backend_failure " x "
    (fun _ => Except.ok { success := false, error := some "document not found" })
    { success := false, error := some "document not found" }
    (by decide) rfl rfl
  refine ⟨by rw [h.1]; decide, h.2.1, ?_⟩
  have h2 := h.2.2.2 "next" (fun _ => Except.ok { success := true }) (by decide)
  simpa using h2

theorem lit_append_assoc (a b lit x : String) (h : lit = a ++ b) :
    lit ++ x = a ++ (b ++ x) := by
  rw [h, String.append_assoc]

/-- The intent annotation occurs inside a truthy intent segment. -/
theorem strIn_intentSeg (it : IntentVal) :
    StrIn ("Intent: " ++ it.intent_type.getD "unknown") (intentSeg (some it)) := by
  have he : intentSeg (some it)
      = "\n\n[dim]" ++ ("Intent: " ++ it.intent_type.getD "unknown") ++ "[/dim]" := by
    show "\n\n[dim]Intent: " ++ it.intent_type.getD "unknown" ++ "[/dim]" = _
    rw [lit_append_assoc "\n\n[dim]" "Intent: " "\n\n[dim]Intent: "
      (it.intent_type.getD "unknown") (by decide)]
  rw [he]
  exact strIn_middle _ _ _

/-- The tools annotation occurs inside a non-empty tools segment. -/
theorem strIn_toolsSeg (ts : List String) (h : ts ≠ []) :
    StrIn ("Tools: " ++ String.intercalate ", " ts) (toolsSeg ts) := by
  have he : toolsSeg ts
      = "\n[dim]" ++ ("Tools: " ++ String.intercalate ", " ts) ++ "[/dim]" := by
    unfold toolsSeg
    rw [if_neg h]
    rw [lit_append_assoc "\n[dim]" "Tools: " "\n[dim]Tools: "
      (String.intercalate ", " ts) (by decide)]
  rw [he]
  exact strIn_middle _ _ _

/-- The sources annotation occurs inside a non-empty sources segment. -/
theorem strIn_sourcesSeg (ss : List String) (h : ss ≠ []) :
    StrIn ("Sources: " ++ String.intercalate ", " ss) (sourcesSeg ss) := by
  have he : sourcesSeg ss
      = "\n[dim]" ++ ("Sources: " ++ String.intercalate ", " ss) ++ "[/dim]" := by
    unfold sourcesSeg
    rw [if_neg h]
    rw [lit_append_assoc "\n[dim]" "Sources: " "\n[dim]Sources: "
      (String.intercalate ", " ss) (by decide)]
  rw [he]
  exact strIn_middle _ _ _

/-- The assistant text rendered by `send_message` for a successful result:
the (placeholder-substituted) response with the result's intent, tools and
sources as the message metadata. -/
def renderedSuccessText (r : ProcessResult) : String :=
  assistantText (responseOrPlaceholder r.response)
    { intent := r.intent, tools_used := r.tools_used, sources := r.sources }

theorem strIn_renderedSuccessText_intentSeg (r : ProcessResult) (n : String)
    (h : StrIn n (intentSeg r.intent)) : StrIn n (renderedSuccessText r) := by
  unfold renderedSuccessText assistantText
  apply strIn_append_left
  apply strIn_append_left
  exact strIn_append_right _ _ _ h

theorem strIn_renderedSuccessText_toolsSeg (r : ProcessResult) (n : String)
    (h : StrIn n (toolsSeg r.tools_used)) : StrIn n (renderedSuccessText r) := by
  unfold renderedSuccessText assistantText
  apply strIn_append_left
  exact strIn_append_right _ _ _ h

theorem strIn_renderedSuccessText_sourcesSeg (r : ProcessResult) (n : String)
    (h : StrIn n (sourcesSeg r.sources)) : StrIn n (renderedSuccessText r) := by
  unfold renderedSuccessText assistantText
  exact strIn_append_right _ _ _ h

/-- C7: on a successful backend result `send_message` mounts an assistant
message whose text contains the response (the placeholder `No response
generated.` when the response is empty or `None`), and which shows the
intent's `intent_type`, the comma-joined `tools_used` and the comma-joined
`sources` annotations whenever each is present and non-empty. -/
theorem send_message_success_render (input : String)
    (b : String → Except String ProcessResult) (r : ProcessResult)
    (h1 : pyStrip input ≠ "") (h2 : b (pyStrip input) = Except.ok r)
    (h3 : r.success = true) :
    Ev.mountAssistant (renderedSuccessText r) ∈ (sendMessage input b).2 ∧
    StrIn (responseOrPlaceholder r.response) (renderedSuccessText r) ∧
    ((r.response = none ∨ r.response = some "") →
      StrIn "No response generated." (renderedSuccessText r)) ∧
    (∀ it, r.intent = some it →
      StrIn ("Intent: " ++ it.intent_type.getD "unknown") (renderedSuccessText r)) ∧
    (r.tools_used ≠ [] →
      StrIn ("Tools: " ++ String.intercalate ", " r.tools_used) (renderedSuccessText r)) ∧
    (r.sources ≠ [] →
      StrIn ("Sources: " ++ String.intercalate ", " r.sources) (renderedSuccessText r)) := by
  refine ⟨?_, strIn_assistant_content _ _, ?_, ?_, ?_, ?_⟩
  · simp [sendMessage, h1, h2, h3, preEvents, renderedSuccessText]
  · intro hresp
    have hp : responseOrPlaceholder r.response = "No response generated." := by
      rcases hresp with h | h <;> simp [responseOrPlaceholder, h]
    unfold renderedSuccessText
    rw [hp]
    exact strIn_assistant_content _ _
  · intro it hit
    apply strIn_renderedSuccessText_intentSeg
    rw [hit]
    exact strIn_intentSeg it
  · intro ht
    exact strIn_renderedSuccessText_toolsSeg _ _ (strIn_toolsSeg _ ht)
  · intro hs
    exact strIn_renderedSuccessText_sourcesSeg _ _ (strIn_sourcesSeg _ hs)

/-- Witness for C7: a successful result with empty response, intent `qa`,
one tool and one source, submitted as `"hello"`. -/
theorem send_message_success_render_witness :
    Ev.mountAssistant (renderedSuccessText
        { success := true, response := some "", intent := some ⟨some "qa"⟩,
          tools_used := ["calculator"], sources := ["INV-001"] })
      ∈ (sendMessage "hello" (fun _ => Except.ok
        { success := true, response := some "", intent := some ⟨some "qa"⟩,
          tools_used := ["calculator"], sources := ["INV-001"] })).2 ∧
    StrIn "No response generated." (renderedSuccessText
        { success := true, response := some "", intent := some ⟨some "qa"⟩,
          tools_used := ["calculator"], sources := ["INV-001"] }) ∧
    StrIn ("Intent: " ++ (some "qa" : Option String).getD "unknown")
      (renderedSuccessText
        { success := true, response := some "", intent := some ⟨some "qa"⟩,
          tools_used := ["calculator"], sources := ["INV-001"] }) ∧
    StrIn ("Sources: " ++ String.intercalate ", " ["INV-001"])
      (renderedSuccessText
        { success := true, response := some "", intent := some ⟨some "qa"⟩,
          tools_used := ["calculator"], sources := ["INV-001"] }) := by
  have h := send_message_success_render "hello"
    (fun _ => Except.ok
      { success := true, response := some "", intent := some ⟨some "qa"⟩,
        tools_used := ["calculator"], sources := ["INV-001"] })
    { success := true, response := some "", intent := some ⟨some "qa"⟩,
      tools_used := ["calculator"], sources := ["INV-001"] }
    (by decide) rfl rfl
  exact ⟨h.1, h.2.2.1 (Or.inr rfl), h.2.2.2.1 ⟨some "qa"⟩ rfl,
    h.2.2.2.2.2 (by decide)⟩

/-- Python truthiness of the `os.getenv` result: `None` and `""` are falsy. -/
def pyTruthyStr (s : Option String) : Bool :=
  match s with
  | none => false
  | some v => !(v == "")

/-- Observable outcome of `DocumentAssistantApp.on_mount`: the status-bar
text, whether `DocumentAssistant(...)` construction was entered, whether
`start_session` completed, whether the welcome message was mounted, and the
stored session id. -/
structure MountOutcome where
  status : String
  initAttempted : Bool
  sessionStarted : Bool
  welcomeMounted : Bool
  session_id : Option String
deriving DecidableEq, Repr

/-- `DocumentAssistantApp.on_mount`: read `OPENAI_API_KEY`; if falsy, set the
error status and return before any backend work. Otherwise run the `try`
block — constructing the assistant, starting a session and mounting the
welcome message, modelled by `ini` (ok with the session id, or error with the
exception text caught by `except Exception`). Partial effects of a failed
`try` block beyond the construction attempt are not tracked. -/
def on_mount (api_key : Option String) (ini : Except String String) : MountOutcome :=
  if !(pyTruthyStr api_key) then
    { status := "[red]❌ Error: OPENAI_API_KEY not found. Please create a .env file.[/red]",
      initAttempted := false, sessionStarted := false, welcomeMounted := false,
      session_id := none }
  else
    match ini with
    | Except.ok sid =>
      { status := "[green]✓ Ready! Type your message below.[/green]",
        initAttempted := true, sessionStarted := true, welcomeMounted := true,
        session_id := some sid }
    | Except.error e =>
      { status := "[red]❌ Error: " ++ e ++ "[/red]",
        initAttempted := true, sessionStarted := false, welcomeMounted := false,
        session_id := none }

/-- C6: with the API credential absent (or empty, equally falsy to `if not
api_key`) the adapter sets the error status and does nothing else: the
backend initialization is never consulted, no session starts, and the
function returns normally for every possible backend behaviour. -/
theorem on_mount_missing_key (ini : Except String String) :
    on_mount none ini =
      { status := "[red]❌ Error: OPENAI_API_KEY not found. Please create a .env file.[/red]",
        initAttempted := false, sessionStarted := false, welcomeMounted := false,
        session_id := none } ∧
    on_mount (some "") ini =
      { status := "[red]❌ Error: OPENAI_API_KEY not found. Please create a .env file.[/red]",
        initAttempted := false, sessionStarted := false, welcomeMounted := false,
        session_id := none } := by
  exact ⟨rfl, rfl⟩

/-! ## Idealized timeline of the thinking indicator

`send_message` mounts the indicator at submission, then
`await asyncio.sleep(0.1)` ("Force UI refresh before blocking call"), then
takes `start_time`, runs the backend for `d` time-units, and finally — if
`elapsed < 0.5` — sleeps `0.5 - elapsed` before `thinking_msg.remove()`.
Sleeps take exactly their nominal duration; all else is instantaneous. -/

/-- The fixed `asyncio.sleep(0.1)` before the blocking call. -/
def refreshDelay : ℚ := 1/10

/-- The 0.5-unit minimum display duration of the thinking indicator. -/
def minThinkingTime : ℚ := 1/2

/-- The instant the user's submission is handled (time origin). -/
def submissionTime : ℚ := 0

/-- `start_time = asyncio.get_event_loop().time()`, taken after the forced
refresh sleep. -/
def startTime : ℚ := submissionTime + refreshDelay

/-- The instant the backend call returns, for a backend taking `d` units. -/
def completionTime (d : ℚ) : ℚ := startTime + d

/-- The instant `thinking_msg.remove()` runs: after the top-up sleep
`0.5 - elapsed` when `elapsed < 0.5`, else immediately on completion. -/
def removalTime (d : ℚ) : ℚ :=
  let elapsed := completionTime d - startTime
  if elapsed < minThinkingTime then completionTime d + (minThinkingTime - elapsed)
  else completionTime d

/-- Counterexample to C3: a backend completing `9/20` units after
`start_time` completes `11/20 ≥ 0.5` units after submission, yet the
indicator is not removed immediately — the code still tops up the sleep
because it measures the threshold from `start_time`, not submission. -/
theorem removal_not_immediate_after_half_unit :
    completionTime (9/20) - submissionTime ≥ 1/2 ∧
    removalTime (9/20) ≠ completionTime (9/20) := by
  constructor
  · norm_num [completionTime, startTime, submissionTime, refreshDelay]
  · norm_num [removalTime, completionTime, startTime, submissionTime,
      refreshDelay, minThinkingTime]

/-- C3 as amended: the 0.5-unit threshold is measured from the start of
backend processing, which the code places `0.1` units after submission. A
backend finishing within `0.5` units of `start_time` has the indicator
removed exactly `0.5` units after `start_time`; a slower one has it removed
immediately at completion. The original claim's lower bound survives:
completion within `0.5` units of submission still implies removal at least
`0.5` units after submission. -/
theorem removal_time_spec (d : ℚ) :
    (d < minThinkingTime → removalTime d = startTime + minThinkingTime) ∧
    (minThinkingTime ≤ d → removalTime d = completionTime d) ∧
    (completionTime d - submissionTime < 1/2 →
      removalTime d - submissionTime ≥ 1/2) := by
  refine ⟨?_, ?_, ?_⟩
  · intro h
    rw [removalTime]
    simp only [completionTime, startTime, submissionTime, refreshDelay,
      minThinkingTime] at *
    rw [if_pos (by linarith)]
    ring
  · intro h
    rw [removalTime]
    simp only [completionTime, startTime, submissionTime, refreshDelay,
      minThinkingTime] at *
    rw [if_neg (by simp; linarith)]
  · intro h
    rw [removalTime]
    simp only [completionTime, startTime, submissionTime, refreshDelay,
      minThinkingTime] at *
    have hd : d < 1/2 := by linarith
    rw [if_pos (by linarith)]
    linarith

/-- Witness for the amended C3 at `d = 9/20` and `d = 1`. -/
theorem removal_time_spec_witness :
    removalTime (9/20) = startTime + minThinkingTime ∧
    removalTime 1 = completionTime 1 := by
  constructor
  · exact (removal_time_spec (9/20)).1 (by norm_num [minThinkingTime])
  · exact (removal_time_spec 1).2.1 (by norm_num [minThinkingTime])

/-! ## `src/prompts.py` -/

/-- The Q&A system prompt string. -/
def QA_SYSTEM_PROMPT : String := "You are a helpful document assistant specializing in answering questions about financial and healthcare documents.\n\nYour capabilities:\n- Answer specific questions about document content\n- Cite sources accurately\n- Provide clear, concise answers\n- Use available tools to search and read documents\n\nGuidelines:\n1. Always search for relevant documents before answering\n2. Cite specific document IDs when referencing information\n3. If information is not found, say so clearly\n4. Be precise with numbers and dates\n5. Maintain professional tone\n\n"

/-- The summarization system prompt string. -/
def SUMMARIZATION_SYSTEM_PROMPT : String := "You are an expert document summarizer specializing in financial and healthcare documents.\n\nYour approach:\n- Extract key information and main points\n- Organize summaries logically\n- Highlight important numbers, dates, and parties\n- Keep summaries concise but comprehensive\n\nGuidelines:\n1. First search for and read the relevant documents\n2. Structure summaries with clear sections\n3. Include document IDs in your summary\n4. Focus on actionable information\n"

/-- The calculation system prompt string. -/
def CALCULATION_SYSTEM_PROMPT : String := "You are a precise calculation assistant specializing in financial and healthcare document analysis.\n\nYour capabilities:\n- Retrieve relevant documents using the document reader tool\n- Extract numerical data from documents\n- Perform accurate mathematical calculations using the calculator tool\n- Provide clear explanations of calculations\n\nGuidelines:\n1. First, determine which document(s) need to be retrieved and use the document reader tool to access them\n2. Extract the relevant numbers from the document content\n3. Determine the mathematical expression needed based on the user's request\n4. ALWAYS use the calculator tool for ALL calculations, no matter how simple\n5. Never perform mental math - always use the calculator tool\n6. Provide step-by-step explanations of your calculations\n7. Include the mathematical expression and the result in your response\n8. Cite the document IDs where you found the numbers\n\nRemember: Use the calculator tool for every calculation, even basic addition or subtraction."

/-- A message template in a `ChatPromptTemplate.from_messages` list: a system
message template, a messages placeholder for a named variable, or a human
message template. -/
inductive PromptMessage where
  | system (template : String)
  | placeholder (variableName : String)
  | human (template : String)
deriving DecidableEq, Repr

/-- `get_chat_prompt_template`: select the system prompt by the intent-type
string (defaulting to the Q&A prompt) and build the three-message chat
template `[system, chat-history placeholder, human "{input}"]`. -/
def get_chat_prompt_template (intent_type : String) : List PromptMessage :=
  let system_prompt :=
    if intent_type = "qa" then QA_SYSTEM_PROMPT
    else if intent_type = "summarization" then SUMMARIZATION_SYSTEM_PROMPT
    else if intent_type = "calculation" then CALCULATION_SYSTEM_PROMPT
    else QA_SYSTEM_PROMPT
  [PromptMessage.system system_prompt, PromptMessage.placeholder "chat_history",
   PromptMessage.human "{input}"]

/-- C10: `get_chat_prompt_template` is total: every intent-type string yields
a template of shape system / chat-history placeholder / human input; the
three known intent types select their own system prompts, and every other
string (including `unknown`) falls back to the Q&A system prompt. -/
theorem get_chat_prompt_template_total :
    (∀ it, ∃ s, get_chat_prompt_template it =
      [PromptMessage.system s, PromptMessage.placeholder "chat_history",
       PromptMessage.human "{input}"]) ∧
    get_chat_prompt_template "qa" =
      [PromptMessage.system QA_SYSTEM_PROMPT, PromptMessage.placeholder "chat_history",
       PromptMessage.human "{input}"] ∧
    get_chat_prompt_template "summarization" =
      [PromptMessage.system SUMMARIZATION_SYSTEM_PROMPT,
       PromptMessage.placeholder "chat_history", PromptMessage.human "{input}"] ∧
    get_chat_prompt_template "calculation" =
      [PromptMessage.system CALCULATION_SYSTEM_PROMPT,
       PromptMessage.placeholder "chat_history", PromptMessage.human "{input}"] ∧
    (∀ it, it ≠ "qa" → it ≠ "summarization" → it ≠ "calculation" →
      get_chat_prompt_template it =
        [PromptMessage.system QA_SYSTEM_PROMPT, PromptMessage.placeholder "chat_history",
         PromptMessage.human "{input}"]) := by
  refine ⟨fun it => ⟨_, rfl⟩, by simp [get_chat_prompt_template],
    ?_, ?_, fun it h1 h2 h3 => by simp [get_chat_prompt_template, h1, h2, h3]⟩
  · have h1 : ("summarization" : String) ≠ "qa" := by decide
    simp [get_chat_prompt_template, h1]
  · have h1 : ("calculation" : String) ≠ "qa" := by decide
    have h2 : ("calculation" : String) ≠ "summarization" := by decide
    simp [get_chat_prompt_template, h1, h2]

/-- Witness for C10 at the fallback intent-type `"unknown"`. -/
theorem get_chat_prompt_template_total_witness :
    get_chat_prompt_template "unknown" =
      [PromptMessage.system QA_SYSTEM_PROMPT, PromptMessage.placeholder "chat_history",
       PromptMessage.human "{input}"] :=
  get_chat_prompt_template_total.2.2.2.2 "unknown"
    (by decide) (by decide) (by decide)

/-! ## Document listing (`action_show_docs`) -/

/-- A document of the backend's `retriever.documents` mapping: `title`,
`doc_type`, and the optional numeric `total` of its metadata dict (the only
metadata key the listing reads). Numeric values are modelled as exact
rationals. -/
structure Doc where
  title : String
  doc_type : String
  metadata_total : Option ℚ := none
deriving DecidableEq, Repr

/-- `⌊100 q + 1/2⌋` computed on the numerator and denominator, the cent count
of Python's `f"{total:,.2f}"`. Rounding of exact halves is idealized to
half-up (float formatting rounds the nearest binary double half-even, a
difference invisible at the exactly representable values used here). -/
def centsOf (q : ℚ) : ℤ := Int.fdiv (q.num * 200 + q.den) (2 * q.den)

/-- Insert a comma after every three characters of a reversed digit list. -/
def commasRev : List Char → List Char
  | a :: b :: c :: d :: rest => a :: b :: c :: ',' :: commasRev (d :: rest)
  | l => l

/-- A natural number with thousands separators, e.g. `1200 ↦ "1,200"`. -/
def natThousands (n : ℕ) : String :=
  String.mk ((commasRev ((Nat.toDigits 10 n).reverse)).reverse)

/-- Two-digit zero-padded rendering of a cent remainder. -/
def twoDec (n : ℕ) : String :=
  if n < 10 then "0" ++ toString n else toString n

/-- Python's `f"{q:,.2f}"`: sign, thousands-separated units, and exactly two
decimal places. -/
def moneyFmt (q : ℚ) : String :=
  let cents := centsOf q
  let sign := if cents < 0 then "-" else ""
  let a := cents.natAbs
  sign ++ natThousands (a / 100) ++ "." ++ twoDec (a % 100)

/-- The text `action_show_docs` appends for one document: the id/title/type
line and, when the metadata has a `total` key, the `Amount:` line. -/
def docEntry (doc_id : String) (d : Doc) : String :=
  "• " ++ doc_id ++ ": " ++ d.title ++ " (" ++ d.doc_type ++ ")\n" ++
    (match d.metadata_total with
     | some t => "  Amount: $" ++ moneyFmt t ++ "\n"
     | none => "")

/-- The full text built by the `for doc_id, doc in ...documents.items()` loop
of `action_show_docs`, starting from the header. -/
def show_docs_text (docs : List (String × Doc)) : String :=
  docs.foldl (fun acc p => acc ++ docEntry p.1 p.2) "📚 Available Documents:\n\n"

theorem docs_foldl_shift :
    ∀ (l : List (String × Doc)) (a : String),
      l.foldl (fun acc p => acc ++ docEntry p.1 p.2) a
        = a ++ l.foldl (fun acc p => acc ++ docEntry p.1 p.2) "" := by
  intro l
  induction l with
  | nil => intro a; simp
  | cons x xs ih =>
    intro a
    simp only [List.foldl_cons]
    rw [ih (a ++ docEntry x.1 x.2), ih ("" ++ docEntry x.1 x.2),
      String.empty_append, String.append_assoc]

example : moneyFmt 1200 = "1,200.00" := by decide
example : moneyFmt (1234567 + 89/100 : ℚ) = "1,234,567.89" := by
  norm_num [moneyFmt, centsOf]
  decide
example : natThousands 1000000 = "1,000,000" := by decide

/-- C8: every document of the mapping contributes its entry to the listing
text; the entry's first line carries the id, title and type; the `Amount:`
line with the dollar-sign currency rendering is present exactly when the
metadata has a `total`; and `1200` renders as `$1,200.00`. -/
theorem show_docs_lists_each_document (docs : List (String × Doc))
    (doc_id : String) (d : Doc) (h : (doc_id, d) ∈ docs) :
    StrIn (docEntry doc_id d) (show_docs_text docs) ∧
    StrIn doc_id (docEntry doc_id d) ∧
    StrIn d.title (docEntry doc_id d) ∧
    StrIn d.doc_type (docEntry doc_id d) ∧
    (∀ t, d.metadata_total = some t →
      StrIn ("  Amount: $" ++ moneyFmt t ++ "\n") (docEntry doc_id d)) ∧
    (d.metadata_total = none →
      docEntry doc_id d
        = "• " ++ doc_id ++ ": " ++ d.title ++ " (" ++ d.doc_type ++ ")\n") ∧
    "$" ++ moneyFmt 1200 = "$1,200.00" := by
  obtain ⟨l1, l2, rfl⟩ := List.append_of_mem h
  refine ⟨?_, ?_, ?_, ?_, ?_, ?_, by decide⟩
  · unfold show_docs_text
    rw [List.foldl_append]
    simp only [List.foldl_cons]
    rw [docs_foldl_shift l2]
    exact ⟨_, _, rfl⟩
  · unfold docEntry
    apply strIn_append_left; apply strIn_append_left; apply strIn_append_left
    apply strIn_append_left; apply strIn_append_left; apply strIn_append_left
    exact ⟨"• ", "", by simp⟩
  · unfold docEntry
    apply strIn_append_left; apply strIn_append_left; apply strIn_append_left
    apply strIn_append_left
    exact ⟨"• " ++ doc_id ++ ": ", "", by simp⟩
  · unfold docEntry
    apply strIn_append_left; apply strIn_append_left
    exact ⟨"• " ++ doc_id ++ ": " ++ d.title ++ " (", "", by simp⟩
  · intro t ht
    simp only [docEntry, ht]
    exact ⟨"• " ++ doc_id ++ ": " ++ d.title ++ " (" ++ d.doc_type ++ ")\n", "",
      by simp⟩
  · intro hn
    simp [docEntry, hn]

/-- Witness for C8 at the spec's scenario document: `INV-001`, titled
`Invoice 1`, of type `invoice`, with metadata total `1200`. -/
theorem show_docs_lists_each_document_witness :
    StrIn (docEntry "INV-001"
        { title := "Invoice 1", doc_type := "invoice", metadata_total := some 1200 })
      (show_docs_text [("INV-001",
        { title := "Invoice 1", doc_type := "invoice", metadata_total := some 1200 })]) ∧
    StrIn "INV-001" (docEntry "INV-001"
      { title := "Invoice 1", doc_type := "invoice", metadata_total := some 1200 }) ∧
    StrIn ("  Amount: $" ++ moneyFmt 1200 ++ "\n") (docEntry "INV-001"
      { title := "Invoice 1", doc_type := "invoice", metadata_total := some 1200 }) ∧
    "$" ++ moneyFmt 1200 = "$1,200.00" := by
  have h := show_docs_lists_each_document
    [("INV-001", { title := "Invoice 1", doc_type := "invoice", metadata_total := some 1200 })]
    "INV-001" { title := "Invoice 1", doc_type := "invoice", metadata_total := some 1200 }
    (by simp)
  exact ⟨h.1, h.2.1, h.2.2.2.2.1 1200 rfl, h.2.2.2.2.2.2⟩

/-! ## Auxiliary actions (`action_show_docs`, `action_show_help`,
`action_new_session`) -/

/-- A pushed modal `InfoScreen`, identified by its content and title. -/
inductive ScreenV where
  | info (content : String) (title : String)
deriving DecidableEq, Repr

/-- The backend client held in `self.assistant` once construction succeeded:
its retriever's document mapping and the session counter feeding
`start_session`. -/
structure AssistantHandle where
  documents : List (String × Doc) := []
  sessionCounter : ℕ := 0
deriving DecidableEq, Repr

/-- Modelled from the spec: `DocumentAssistant.start_session` lives in the
unshown `assistant` module; per the spec it always succeeds and returns a
fresh opaque session id, modelled as a counter-indexed identifier. -/
def sessionGen (n : ℕ) : String := "session-" ++ toString n

/-- Python `s[:8]`, the display truncation of session ids. -/
def pyTake8 (s : String) : String := String.mk (s.data.take 8)

/-- The adapter state the auxiliary actions read and write: the optional
backend client, session identity and info display, status bar, pushed-screen
stack, the chat container contents (which carry any in-flight request's
rendering), and the current wall-clock display string. -/
structure ActionState where
  assistant : Option AssistantHandle := none
  session_id : Option String := none
  session_info : String := ""
  status : String := ""
  screens : List ScreenV := []
  chat : List Ev := []
  now : String := ""
deriving DecidableEq, Repr

/-- `action_show_docs`: `if not self.assistant: return`, else push the
documents `InfoScreen`. -/
def action_show_docs (s : ActionState) : ActionState :=
  match s.assistant with
  | none => s
  | some a =>
    { s with screens := ScreenV.info (show_docs_text a.documents) "Documents" :: s.screens }

/-- The static help markdown of `action_show_help`. -/
def helpText : String := "\n# Document Assistant Help\n\n## Example Queries\n\n### Q&A\n- What's the total amount in invoice INV-001?\n- What are the terms of contract CON-001?\n- Show me details about claim CLM-001\n\n### Summarization\n- Summarize all contracts\n- Give me a summary of invoice INV-002\n- Summarize the insurance claims\n\n### Calculations\n- Calculate the sum of all invoice totals\n- What's the average amount of all documents?\n- Add the totals from INV-001 and INV-002\n\n## Keyboard Shortcuts\n- **Ctrl+D** - Show documents\n- **Ctrl+H** - Show this help\n- **Ctrl+N** - Start new session\n- **Ctrl+Q** - Quit application\n- **Enter** - Send message\n"

/-- `action_show_help`: unconditionally push the help `InfoScreen`. -/
def action_show_help (s : ActionState) : ActionState :=
  { s with screens := ScreenV.info helpText "Help" :: s.screens }

/-- The session-info text written by `action_new_session`. -/
def newSessionInfo (sid now : String) : String :=
  "[green]✓ New Session: " ++ pyTake8 sid ++ "...[/green]\n[dim]Started: "
    ++ now ++ "[/dim]"

/-- `action_new_session`: `if self.assistant:` start a fresh session and
update the session-info and status displays; otherwise do nothing. -/
def action_new_session (s : ActionState) : ActionState :=
  match s.assistant with
  | none => s
  | some a =>
    let sid := sessionGen a.sessionCounter
    { s with
      assistant := some { a with sessionCounter := a.sessionCounter + 1 },
      session_id := some sid,
      session_info := newSessionInfo sid s.now,
      status := "[green]✓ New session started[/green]" }

/-- Counterexample to C9 as stated: invoked before the backend client exists,
`action_show_help` is not a no-op — it still pushes the help screen (the
claim's universal "it no-ops" fails for the help action). -/
theorem action_show_help_not_noop_before_client :
    action_show_help { assistant := none } ≠ ({ assistant := none } : ActionState) := by
  decide

/-- C9 as amended: the document-listing and new-session actions no-op when
the backend client does not exist; the help action always just pushes its
static screen, touching no backend state; and all three actions are total
and never modify the chat container, so an in-flight request's rendering is
never corrupted. -/
theorem auxiliary_actions_safe (s : ActionState) :
    (s.assistant = none → action_show_docs s = s) ∧
    (s.assistant = none → action_new_session s = s) ∧
    action_show_help s
      = { s with screens := ScreenV.info helpText "Help" :: s.screens } ∧
    (action_show_docs s).chat = s.chat ∧
    (action_show_help s).chat = s.chat ∧
    (action_new_session s).chat = s.chat := by
  refine ⟨?_, ?_, rfl, ?_, rfl, ?_⟩
  · intro h; simp [action_show_docs, h]
  · intro h; simp [action_new_session, h]
  · cases h : s.assistant <;> simp [action_show_docs, h]
  · cases h : s.assistant <;> simp [action_new_session, h]

/-- Witness for the amended C9 at a concrete client-less state and a concrete
state with a client and a non-empty chat. -/
theorem auxiliary_actions_safe_witness :
    action_show_docs { assistant := none } = ({ assistant := none } : ActionState) ∧
    action_new_session { assistant := none } = ({ assistant := none } : ActionState) ∧
    (action_new_session { assistant := some {}, chat := [Ev.mountThinking] }).chat
      = [Ev.mountThinking] := by
  refine ⟨(auxiliary_actions_safe { assistant := none }).1 rfl,
    (auxiliary_actions_safe { assistant := none }).2.1 rfl, ?_⟩
  have h := (auxiliary_actions_safe
    { assistant := some {}, chat := [Ev.mountThinking] }).2.2.2.2.2
  simpa using h

/-- Witness for C6 at a concrete backend-initialization behaviour. -/
theorem on_mount_missing_key_witness :
    on_mount none (Except.ok "abc") =
      { status := "[red]❌ Error: OPENAI_API_KEY not found. Please create a .env file.[/red]",
        initAttempted := false, sessionStarted := false, welcomeMounted := false,
        session_id := none } :=
  (on_mount_missing_key (Except.ok "abc")).1
